import Mathlib

/-!
Verification of the PPU register model of the `nesrs` emulator core.

The Rust source (`src/ppu.rs`) is embedded shallowly: the `PPU` struct
becomes a Lean structure, machine integers (`u8`, `u16`, `i32`, `u64`)
become `Nat`/`Int` with explicit `% 2^w` where the source can overflow,
the byte arrays (`palete_data`, `name_table_data`, `oam_data`) and the
`Box<dyn Memory>` bus become function stores `Nat → Nat` (the `Memory`
trait in `src/memory.rs` is the pure interface `read : u16 → u8`,
`write : u16 × u8`), and each `&mut self` method becomes a function from
`PPU` to `PPU` (paired with the returned byte where the method returns one).
-/

namespace Nesrs

/-- The `PPU` struct of `src/ppu.rs`.  The external `Console` handle is
modelled as `Unit` (it is never consulted by any register operation), the
two `Rgba<u16>` frame-buffer handles as 4-tuples of `Nat`, and every
numeric field as `Nat` except the `i32` counters `cycle`, `scanline`,
`sprite_count`, which are `Int`. -/
structure PPU where
  mem : Nat → Nat
  console : Unit
  cycle : Int
  scanline : Int
  frame : Nat
  palete_data : Nat → Nat
  name_table_data : Nat → Nat
  oam_data : Nat → Nat
  front : Nat × Nat × Nat × Nat
  back : Nat × Nat × Nat × Nat
  v : Nat
  t : Nat
  x : Nat
  w : Nat
  f : Nat
  register : Nat
  nmi_occurred : Bool
  nmi_output : Bool
  nmi_prev : Bool
  nmi_delay : Nat
  name_table_byte : Nat
  attr_table_byte : Nat
  low_tile_byte : Nat
  high_tile_byte : Nat
  tile_data : Nat
  sprite_count : Int
  sprite_patterns : Nat → Nat
  sprite_position : Nat → Nat
  sprite_priorities : Nat → Nat
  sprite_indexes : Nat → Nat
  flag_name_table : Nat
  flag_increment : Nat
  flag_sprite_table : Nat
  flag_background_table : Nat
  flag_sprite_size : Nat
  flag_master_slave : Nat
  flag_gray_scale : Nat
  flag_show_left_background : Nat
  flag_show_left_sprites : Nat
  flag_show_background : Nat
  flag_show_sprites : Nat
  flag_red_tint : Nat
  flag_green_tint : Nat
  flag_blue_tint : Nat
  flag_sprite_zero_hit : Nat
  flag_sprite_overflow : Nat
  oam_addr : Nat
  buffer_data : Nat

/-- `fn nmi_change(&mut self) {}` — an empty body, hence the identity. -/
def nmi_change (p : PPU) : PPU := p

/-- `fn read_palette(&mut self, mut addr: u16) -> u8`: palette addresses
`addr ≥ 16` with `addr % 4 == 0` are canonicalized by subtracting 16
before indexing `palete_data`. -/
def read_palette (p : PPU) (addr : Nat) : Nat :=
  let addr := if 16 ≤ addr ∧ addr % 4 = 0 then addr - 16 else addr
  p.palete_data addr

/-- `fn write_palette(&mut self, mut addr: u16, value: u8)`: same
canonicalization as `read_palette`, then stores `value`. -/
def write_palette (p : PPU) (addr value : Nat) : PPU :=
  let addr := if 16 ≤ addr ∧ addr % 4 = 0 then addr - 16 else addr
  { p with palete_data := fun i => if i = addr then value else p.palete_data i }

/-- `fn write_control(&mut self, value: u8)` ($2000 PPUCTRL). -/
def write_control (p : PPU) (value : Nat) : PPU :=
  let p := { p with
    flag_name_table := (value >>> 0) &&& 3
    flag_increment := (value >>> 2) &&& 1
    flag_sprite_table := (value >>> 3) &&& 1
    flag_background_table := (value >>> 4) &&& 1
    flag_sprite_size := (value >>> 5) &&& 1
    flag_master_slave := (value >>> 6) &&& 1
    nmi_output := (value >>> 7) &&& 1 == 1 }
  let p := nmi_change p
  { p with t := (p.t &&& 0xF3FF) ||| ((value &&& 0x03) <<< 10) }

/-- `fn write_mask(&mut self, value: u8)` ($2001 PPUMASK).  The source
assigns `flag_blue_tint` twice (first from bit 6, then from bit 7) and
never assigns `flag_green_tint`; the two sequential assignments are kept
verbatim. -/
def write_mask (p : PPU) (value : Nat) : PPU :=
  let p := { p with
    flag_gray_scale := (value >>> 0) &&& 1
    flag_show_left_background := (value >>> 1) &&& 1
    flag_show_left_sprites := (value >>> 2) &&& 1
    flag_show_background := (value >>> 3) &&& 1
    flag_show_sprites := (value >>> 4) &&& 1
    flag_red_tint := (value >>> 5) &&& 1
    flag_blue_tint := (value >>> 6) &&& 1 }
  { p with flag_blue_tint := (value >>> 7) &&& 1 }

/-- `fn read_status(&mut self) -> u8` ($2002 PPUSTATUS).  The source ORs
the raw `flag_sprite_overflow` once and the raw `flag_sprite_zero_hit`
twice, without shifting either into status-bit position; both repetitions
are kept verbatim.  The vblank bit is ORed at bit 7, `nmi_occurred` is
cleared and `w` reset. -/
def read_status (p : PPU) : Nat × PPU :=
  let result := p.register &&& 0x1F
  let result := result ||| p.flag_sprite_overflow
  let result := result ||| p.flag_sprite_zero_hit
  let result := result ||| p.flag_sprite_zero_hit
  let result := if p.nmi_occurred then result ||| (1 <<< 7) else result
  let p := { p with nmi_occurred := false }
  let p := nmi_change p
  (result, { p with w := 0 })

/-- `fn write_oam_addr(&mut self, value: u8)` ($2003 OAMADDR). -/
def write_oam_addr (p : PPU) (value : Nat) : PPU :=
  { p with oam_addr := value }

/-- `fn read_oam_data(&self) -> u8` ($2004 OAMDATA read). -/
def read_oam_data (p : PPU) : Nat :=
  let data := p.oam_data p.oam_addr
  if p.oam_addr &&& 0x03 = 0x02 then data &&& 0xE3 else data

/-- `fn write_oam_data(&mut self, value: u8)` ($2004 OAMDATA write); the
`u8` cursor increment wraps mod 256. -/
def write_oam_data (p : PPU) (value : Nat) : PPU :=
  let p := { p with
    oam_data := fun i => if i = p.oam_addr then value else p.oam_data i }
  { p with oam_addr := (p.oam_addr + 1) % 256 }

/-- `fn write_scroll(&mut self, value: u8)` ($2005 PPUSCROLL).  The mask
literal `0x8FFE0` of the first-write branch is kept verbatim (on a 16-bit
`t` it acts as `0xFFE0`). -/
def write_scroll (p : PPU) (value : Nat) : PPU :=
  if p.w = 0 then
    { p with
      t := (p.t &&& 0x8FFE0) ||| (value >>> 3)
      x := value &&& 0x07
      w := 1 }
  else
    let p := { p with t := (p.t &&& 0x8FFF) ||| ((value &&& 0x07) <<< 12) }
    { p with
      t := (p.t &&& 0xFC1F) ||| ((value &&& 0xF8) <<< 2)
      w := 0 }

/-- `fn write_addr(&mut self, value: u8)` ($2006 PPUADDR). -/
def write_addr (p : PPU) (value : Nat) : PPU :=
  if p.w = 0 then
    { p with
      t := (p.t &&& 0x80FF) ||| ((value &&& 0x3F) <<< 8)
      w := 1 }
  else
    let p := { p with t := (p.t &&& 0xFF00) ||| value }
    { p with v := p.t, w := 0 }

/-- `fn read_data(&mut self) -> u8` ($2007 PPUDATA read): buffered reads
below the palette range, immediate reads in the palette range with the
buffer primed from `v - 0x1000`, then the `u16` address increment (by 1 or
32 per `flag_increment`) taken mod 2^16. -/
def read_data (p : PPU) : Nat × PPU :=
  let value := p.mem p.v
  let vp :=
    if p.v % 0x4000 < 0x3F00 then
      (p.buffer_data, { p with buffer_data := value })
    else
      (value, { p with buffer_data := p.mem (p.v - 0x1000) })
  let value := vp.1
  let p := vp.2
  let p :=
    if p.flag_increment = 0 then { p with v := (p.v + 1) % 65536 }
    else { p with v := (p.v + 32) % 65536 }
  (value, p)

/-- `fn write_data(&mut self, value: u8)` ($2007 PPUDATA write): the bus
write goes straight to `v`, then the same address increment as
`read_data`. -/
def write_data (p : PPU) (value : Nat) : PPU :=
  let p := { p with mem := fun a => if a = p.v then value else p.mem a }
  if p.flag_increment = 0 then { p with v := (p.v + 1) % 65536 }
  else { p with v := (p.v + 32) % 65536 }

/-- `fn write_dma(&mut self, value: u8)` ($4014 OAMDMA).  The source body
is `println!("{}", value)` under a `TODO: Implemet CPU` comment: no OAM
copy, no CPU stall, no state change at all. -/
def write_dma (p : PPU) (_value : Nat) : PPU := p

/-- `fn reset(mut self)`: reinitializes the counters and zero-writes the
control, mask and OAM-address registers. -/
def reset (p : PPU) : PPU :=
  let p := { p with cycle := 340, scanline := 240, frame := 0 }
  let p := write_control p 0
  let p := write_mask p 0
  write_oam_addr p 0

/-- `fn read_register(&mut self, addr: u16) -> u8`: dispatches $2002,
$2004, $2007, and returns `0` (with no state change) for every other
address. -/
def read_register (p : PPU) (addr : Nat) : Nat × PPU :=
  if addr = 0x2002 then read_status p
  else if addr = 0x2004 then (read_oam_data p, p)
  else if addr = 0x2007 then read_data p
  else (0, p)

/-- `fn write_register(&mut self, addr: u16, value: u8)`: records the
last written value in `register`, then dispatches.  The source `match`
has no arm for other addresses (it is non-exhaustive); they are modelled
as leaving the dispatch target untouched. -/
def write_register (p : PPU) (addr value : Nat) : PPU :=
  let p := { p with register := value }
  if addr = 0x2000 then write_control p value
  else if addr = 0x2001 then write_mask p value
  else if addr = 0x2003 then write_oam_addr p value
  else if addr = 0x2004 then write_oam_data p value
  else if addr = 0x2005 then write_scroll p value
  else if addr = 0x2006 then write_addr p value
  else if addr = 0x2007 then write_data p value
  else if addr = 0x4014 then write_dma p value
  else p

/-- A concrete all-zero PPU state, used to build explicit test states. -/
def ppu0 : PPU where
  mem := fun _ => 0
  console := ()
  cycle := 0
  scanline := 0
  frame := 0
  palete_data := fun _ => 0
  name_table_data := fun _ => 0
  oam_data := fun _ => 0
  front := (0, 0, 256, 240)
  back := (0, 0, 256, 240)
  v := 0
  t := 0
  x := 0
  w := 0
  f := 0
  register := 0
  nmi_occurred := false
  nmi_output := false
  nmi_prev := false
  nmi_delay := 0
  name_table_byte := 0
  attr_table_byte := 0
  low_tile_byte := 0
  high_tile_byte := 0
  tile_data := 0
  sprite_count := 0
  sprite_patterns := fun _ => 0
  sprite_position := fun _ => 0
  sprite_priorities := fun _ => 0
  sprite_indexes := fun _ => 0
  flag_name_table := 0
  flag_increment := 0
  flag_sprite_table := 0
  flag_background_table := 0
  flag_sprite_size := 0
  flag_master_slave := 0
  flag_gray_scale := 0
  flag_show_left_background := 0
  flag_show_left_sprites := 0
  flag_show_background := 0
  flag_show_sprites := 0
  flag_red_tint := 0
  flag_green_tint := 0
  flag_blue_tint := 0
  flag_sprite_zero_hit := 0
  flag_sprite_overflow := 0
  oam_addr := 0
  buffer_data := 0

/-- The `impl Default for PPU` of the source builds `front`, `back` and
`console`, then asks `..Default::default()` — this very constructor — for
every remaining field.  `ppuDefaultApprox fuel` is the value that recursion
produces within `fuel` unfoldings: `none` means the unfolding has not yet
bottomed out in a value.  There is no base case to bottom out in. -/
def ppuDefaultApprox : Nat → Option PPU
  | 0 => none
  | n + 1 =>
    (ppuDefaultApprox n).map fun rest =>
      { rest with
        console := ()
        front := (0, 0, 256, 240)
        back := (0, 0, 256, 240) }

/-- C1: the claim says a write to $4014 copies 256 bytes into OAM and
stalls the CPU for 513/514 cycles.  The source's `write_dma` only logs the
value (`TODO: Implemet CPU`): the whole PPU state except the `register`
latch is unchanged — in particular `oam_data` receives no bytes and no
cycle bookkeeping happens — so the write triggers no transfer and no
stall. -/
theorem dma_write_is_noop (p : PPU) (value : Nat) :
    write_register p 0x4014 value = { p with register := value } := by
  rfl

/-- C2: at the state with `flag_sprite_overflow = 1` and everything else
zero, the claim requires `read_status` to return `0x20` (sprite-overflow
at bit 5); the source ORs the unshifted flag and returns `0x01`. -/
theorem status_overflow_flag_not_at_bit5 :
    (read_status { ppu0 with flag_sprite_overflow := 1 }).1 = 0x01 := by
  rfl

/-- C3: reading the status register always clears `nmi_occurred` and
resets the write toggle `w` to 0, from every prior state. -/
theorem read_status_clears_vblank_and_w (p : PPU) :
    (read_status p).2.nmi_occurred = false ∧ (read_status p).2.w = 0 :=
  ⟨rfl, rfl⟩

/-- C7: `reset` sets scanline 240, cycle 340, frame 0 and zero-writes the
control and OAM-address registers, but `write_mask 0` never assigns
`flag_green_tint` (the source writes `flag_blue_tint` twice instead), so
the green-tint mask bit survives the reset instead of being zeroed. -/
theorem reset_counters_but_green_tint_persists (p : PPU) :
    (reset p).scanline = 240 ∧ (reset p).cycle = 340 ∧ (reset p).frame = 0 ∧
    (reset p).oam_addr = 0 ∧
    (reset p).flag_green_tint = p.flag_green_tint := by
  exact ⟨rfl, rfl, rfl, rfl, rfl⟩

/-- C9: the self-referential `Default` impl never produces a value at any
finite unfolding depth: the recursion `..Default::default()` has no base
case, so PPU default construction does not terminate. -/
theorem ppu_default_never_terminates (fuel : Nat) :
    ppuDefaultApprox fuel = none := by
  induction fuel with
  | zero => rfl
  | succ n ih => simp [ppuDefaultApprox, ih]

/-- C10: reading any register address other than $2002, $2004 and $2007
— in particular the write-only ports — returns 0 and leaves the PPU state
unchanged. -/
theorem read_register_other_ports_return_zero (p : PPU) (addr : Nat)
    (h2 : addr ≠ 0x2002) (h4 : addr ≠ 0x2004) (h7 : addr ≠ 0x2007) :
    read_register p addr = (0, p) := by
  simp [read_register, h2, h4, h7]

/-- Instantiation of `read_register_other_ports_return_zero` at the
write-only port $2005. -/
theorem read_register_other_ports_return_zero_witness :
    read_register ppu0 0x2005 = (0, ppu0) :=
  read_register_other_ports_return_zero ppu0 0x2005
    (by decide) (by decide) (by decide)

/-- C5: for every palette address `a < 32`, writing `v` at `a` and reading
`a` back returns `v`; and for `a ≥ 16` with `a % 4 = 0`, reading `a`
agrees with reading `a - 16` in every state (the background-color mirror
canonicalization). -/
theorem palette_roundtrip_and_mirror (p : PPU) (a v : Nat) (ha : a < 32) :
    read_palette (write_palette p a v) a = v ∧
    (16 ≤ a → a % 4 = 0 → read_palette p a = read_palette p (a - 16)) := by
  constructor
  · simp [read_palette, write_palette]
  · intro h16 h4
    have hc : ¬ (16 ≤ a - 16 ∧ (a - 16) % 4 = 0) := by omega
    simp only [read_palette]
    rw [if_pos ⟨h16, h4⟩, if_neg hc]

/-- Instantiation of `palette_roundtrip_and_mirror` at address 24 and
byte value 0x2A. -/
theorem palette_roundtrip_and_mirror_witness :
    read_palette (write_palette ppu0 24 0x2A) 24 = 0x2A ∧
    (16 ≤ 24 → 24 % 4 = 0 → read_palette ppu0 24 = read_palette ppu0 (24 - 16)) :=
  palette_roundtrip_and_mirror ppu0 24 0x2A (by decide)

/-- C8: a $2007 read below the palette range returns the prior buffer and
stores the freshly read byte into the buffer; a read in the palette range
(`v % 0x4000 ≥ 0x3F00`) returns the byte at `v` immediately and primes
the buffer from `v - 0x1000`; a $2007 write stores the value at `v`; and
both accesses advance `v` by 1 when `flag_increment = 0` and by 32
otherwise (as the 16-bit register, i.e. mod 2^16). -/
theorem data_port_buffering_and_increment (p : PPU) (value : Nat) :
    (p.v % 0x4000 < 0x3F00 →
      (read_data p).1 = p.buffer_data ∧
      (read_data p).2.buffer_data = p.mem p.v) ∧
    (0x3F00 ≤ p.v % 0x4000 →
      (read_data p).1 = p.mem p.v ∧
      (read_data p).2.buffer_data = p.mem (p.v - 0x1000)) ∧
    (write_data p value).mem p.v = value ∧
    (read_data p).2.v =
      (p.v + (if p.flag_increment = 0 then 1 else 32)) % 65536 ∧
    (write_data p value).v =
      (p.v + (if p.flag_increment = 0 then 1 else 32)) % 65536 := by
  refine ⟨fun h => ?_, fun h => ?_, ?_, ?_, ?_⟩
  · by_cases hi : p.flag_increment = 0 <;> simp [read_data, h, hi]
  · have h' : ¬ p.v % 0x4000 < 0x3F00 := by omega
    by_cases hi : p.flag_increment = 0 <;> simp [read_data, h', hi]
  · by_cases hi : p.flag_increment = 0 <;> simp [write_data, hi]
  · by_cases hi : p.flag_increment = 0 <;>
      by_cases h : p.v % 0x4000 < 0x3F00 <;> simp [read_data, h, hi]
  · by_cases hi : p.flag_increment = 0 <;> simp [write_data, hi]

/-- Instantiation of `data_port_buffering_and_increment` at a palette
address (`v = 0x3F10`) with a memory holding 7 everywhere. -/
theorem data_port_buffering_and_increment_witness :
    (read_data { ppu0 with v := 0x3F10, mem := fun _ => 7 }).1 = 7 ∧
    (read_data { ppu0 with v := 0x3F10, mem := fun _ => 7 }).2.v = 0x3F11 :=
  ⟨((data_port_buffering_and_increment
      { ppu0 with v := 0x3F10, mem := fun _ => 7 } 0).2.1 (by decide)).1,
   by
    have h := (data_port_buffering_and_increment
      { ppu0 with v := 0x3F10, mem := fun _ => 7 } 0).2.2.2.1
    simpa using h⟩

/-- Bound helper: masking cannot increase a value, so a 15-bit value
stays 15-bit. -/
theorem land_lt_32768 {x : Nat} (m : Nat) (hx : x < 32768) :
    x &&& m < 32768 :=
  Nat.lt_of_le_of_lt Nat.and_le_left hx

/-- Bound helper: the OR of two 15-bit values is 15-bit. -/
theorem lor_lt_32768 {x y : Nat} (hx : x < 32768) (hy : y < 32768) :
    x ||| y < 32768 := by
  have h : (32768 : Nat) = 2 ^ 15 := by norm_num
  rw [h] at hx hy ⊢
  exact Nat.or_lt_two_pow hx hy

/-- A 15-bit value has bit 15 clear. -/
theorem land_high_bit_zero {x : Nat} (hx : x < 32768) : x &&& 0x8000 = 0 := by
  have h : (0x8000 : Nat) = 2 ^ 15 := by norm_num
  rw [h, Nat.and_two_pow]
  have hb : x.testBit 15 = false := Nat.testBit_lt_two_pow (by norm_num; omega)
  rw [hb]
  rfl

/-- A byte shifted into the high half is untouched by the `0xFF00` mask. -/
theorem shl8_land_ff00 {y : Nat} (hy : y < 256) :
    (y <<< 8) &&& 0xFF00 = y <<< 8 := by
  apply Nat.eq_of_testBit_eq
  intro i
  rw [Nat.testBit_and]
  cases hb : (y <<< 8).testBit i with
  | false => simp
  | true =>
    rw [Nat.testBit_shiftLeft] at hb
    simp only [ge_iff_le, Bool.and_eq_true, decide_eq_true_eq] at hb
    obtain ⟨h8, hyb⟩ := hb
    have hlt : i - 8 < 8 := by
      by_contra hcon
      have hle : (256 : Nat) ≤ 2 ^ (i - 8) := by
        calc (256 : Nat) = 2 ^ 8 := by norm_num
        _ ≤ 2 ^ (i - 8) := Nat.pow_le_pow_right (by norm_num) (by omega)
      have hpow : y < 2 ^ (i - 8) := Nat.lt_of_lt_of_le hy hle
      rw [Nat.testBit_lt_two_pow hpow] at hyb
      exact Bool.noConfusion hyb
    have hi : i < 16 := by omega
    have hmask : (0xFF00 : Nat).testBit i = true := by
      interval_cases i <;> decide
    rw [hmask, Bool.and_true]

/-- C4: with the write toggle `w = 0` and the 15-bit invariant on `t`,
two $2005 writes followed by two $2006 writes end with `w = 0` and with
`v` assembled from the $2006 bytes: the first $2006 write supplies bits
8–13 (bit 14 forced to 0), the second supplies the low byte, so
`v = ((c &&& 0x3F) <<< 8) ||| d`. -/
theorem scroll_then_addr_writes_assemble_v (p : PPU) (a b c d : Nat)
    (hw : p.w = 0) (ht : p.t < 32768)
    (ha : a < 256) (hb : b < 256) (hc : c < 256) (hd : d < 256) :
    (write_register (write_register (write_register (write_register p
        0x2005 a) 0x2005 b) 0x2006 c) 0x2006 d).w = 0 ∧
    (write_register (write_register (write_register (write_register p
        0x2005 a) 0x2005 b) 0x2006 c) 0x2006 d).v =
      ((c &&& 0x3F) <<< 8) ||| d := by
  simp only [write_register, write_scroll, write_addr]
  norm_num [hw]
  have ht1 : (p.t &&& 0x8FFE0) ||| (a >>> 3) < 32768 := by
    apply lor_lt_32768 (land_lt_32768 _ ht)
    calc a >>> 3 = a / 2 ^ 3 := Nat.shiftRight_eq_div_pow a 3
    _ ≤ a := Nat.div_le_self a 8
    _ < 32768 := by omega
  have ht2a : (((p.t &&& 0x8FFE0) ||| (a >>> 3)) &&& 0x8FFF) |||
      ((b &&& 0x07) <<< 12) < 32768 := by
    apply lor_lt_32768 (land_lt_32768 _ ht1)
    have : b &&& 0x07 ≤ 0x07 := Nat.and_le_right
    calc (b &&& 0x07) <<< 12 = (b &&& 0x07) * 4096 := Nat.shiftLeft_eq _ 12
    _ ≤ 7 * 4096 := Nat.mul_le_mul_right _ this
    _ < 32768 := by norm_num
  have ht2 : (((((p.t &&& 0x8FFE0) ||| (a >>> 3)) &&& 0x8FFF) |||
      ((b &&& 0x07) <<< 12)) &&& 0xFC1F) ||| ((b &&& 0xF8) <<< 2) < 32768 := by
    apply lor_lt_32768 (land_lt_32768 _ ht2a)
    have : b &&& 0xF8 ≤ 0xF8 := Nat.and_le_right
    calc (b &&& 0xF8) <<< 2 = (b &&& 0xF8) * 4 := Nat.shiftLeft_eq _ 2
    _ ≤ 248 * 4 := Nat.mul_le_mul_right _ this
    _ < 32768 := by norm_num
  rw [Nat.and_distrib_right, Nat.and_assoc]
  have hm : (33023 : Nat) &&& 65280 = 32768 := by decide
  rw [hm, land_high_bit_zero ht2, shl8_land_ff00 (show c &&& 0x3F < 256 by
    have : c &&& 0x3F ≤ 0x3F := Nat.and_le_right
    omega)]
  simp

/-- Instantiation of `scroll_then_addr_writes_assemble_v` with the bytes
0x7D, 0x5E, 0x3D, 0xF0 from the all-zero state: the final `v` is
0x3DF0. -/
theorem scroll_then_addr_writes_assemble_v_witness :
    (write_register (write_register (write_register (write_register ppu0
        0x2005 0x7D) 0x2005 0x5E) 0x2006 0x3D) 0x2006 0xF0).w = 0 ∧
    (write_register (write_register (write_register (write_register ppu0
        0x2005 0x7D) 0x2005 0x5E) 0x2006 0x3D) 0x2006 0xF0).v =
      ((0x3D &&& 0x3F) <<< 8) ||| 0xF0 :=
  scroll_then_addr_writes_assemble_v ppu0 0x7D 0x5E 0x3D 0xF0
    rfl (by decide) (by decide) (by decide) (by decide) (by decide)

/-- C6 counterexample: from the state with `v = 0x7FFF` (bit 15 of both
`v` and `t` clear, so the claimed invariant holds before the operation),
a $2007 write increments `v` to 0x8000, setting bit 15 — so not every
register operation preserves the invariant. -/
theorem data_write_breaks_bit15_of_v :
    ({ ppu0 with v := 0x7FFF } : PPU).v < 0x8000 ∧
    ({ ppu0 with v := 0x7FFF } : PPU).t < 0x8000 ∧
    (write_register { ppu0 with v := 0x7FFF } 0x2007 0).v = 0x8000 :=
  ⟨by decide, by decide, rfl⟩

/-- C6 as amended: writes to $2000, $2005, $2006 and status reads keep
bit 15 of `v` and `t` zero; $2007 reads and writes keep bit 15 of `t`
zero, and keep bit 15 of `v` zero provided the auto-increment (1 or 32
per `flag_increment`) does not carry `v` to 0x8000 or beyond. -/
theorem v_t_bit15_preservation (p : PPU) (value : Nat)
    (hv : p.v < 32768) (ht : p.t < 32768) (hval : value < 256) :
    ((write_register p 0x2000 value).t < 32768 ∧
     (write_register p 0x2000 value).v < 32768) ∧
    ((write_register p 0x2005 value).t < 32768 ∧
     (write_register p 0x2005 value).v < 32768) ∧
    ((write_register p 0x2006 value).t < 32768 ∧
     (write_register p 0x2006 value).v < 32768) ∧
    ((read_register p 0x2002).2.t < 32768 ∧
     (read_register p 0x2002).2.v < 32768) ∧
    ((read_register p 0x2007).2.t < 32768 ∧
     (write_register p 0x2007 value).t < 32768) ∧
    (p.v + (if p.flag_increment = 0 then 1 else 32) < 32768 →
      (read_register p 0x2007).2.v < 32768 ∧
      (write_register p 0x2007 value).v < 32768) := by
  refine ⟨⟨?_, ?_⟩, ⟨?_, ?_⟩, ⟨?_, ?_⟩, ⟨?_, ?_⟩, ⟨?_, ?_⟩,
    fun hinc => ⟨?_, ?_⟩⟩
  · simp only [write_register, write_control, nmi_change]
    norm_num
    apply lor_lt_32768 (land_lt_32768 _ ht)
    have h3 : value &&& 0x03 ≤ 0x03 := Nat.and_le_right
    calc (value &&& 0x03) <<< 10 = (value &&& 0x03) * 1024 :=
      Nat.shiftLeft_eq _ 10
    _ ≤ 3 * 1024 := Nat.mul_le_mul_right _ h3
    _ < 32768 := by norm_num
  · simp only [write_register, write_control, nmi_change]
    norm_num
    exact hv
  · by_cases hw : p.w = 0 <;>
      simp only [write_register, write_scroll, hw, if_true, if_false,
        reduceIte] <;> norm_num
    · apply lor_lt_32768 (land_lt_32768 _ ht)
      calc value >>> 3 = value / 2 ^ 3 := Nat.shiftRight_eq_div_pow value 3
      _ ≤ value := Nat.div_le_self value 8
      _ < 32768 := by omega
    · apply lor_lt_32768
      · apply land_lt_32768
        apply lor_lt_32768 (land_lt_32768 _ ht)
        have h7 : value &&& 0x07 ≤ 0x07 := Nat.and_le_right
        calc (value &&& 0x07) <<< 12 = (value &&& 0x07) * 4096 :=
          Nat.shiftLeft_eq _ 12
        _ ≤ 7 * 4096 := Nat.mul_le_mul_right _ h7
        _ < 32768 := by norm_num
      · have hf : value &&& 0xF8 ≤ 0xF8 := Nat.and_le_right
        calc (value &&& 0xF8) <<< 2 = (value &&& 0xF8) * 4 :=
          Nat.shiftLeft_eq _ 2
        _ ≤ 248 * 4 := Nat.mul_le_mul_right _ hf
        _ < 32768 := by norm_num
  · by_cases hw : p.w = 0 <;>
      simp only [write_register, write_scroll, hw, if_true, if_false,
        reduceIte] <;> norm_num <;> exact hv
  · by_cases hw : p.w = 0 <;>
      simp only [write_register, write_addr, hw, if_true, if_false,
        reduceIte] <;> norm_num
    · apply lor_lt_32768 (land_lt_32768 _ ht)
      have h6 : value &&& 0x3F ≤ 0x3F := Nat.and_le_right
      calc (value &&& 0x3F) <<< 8 = (value &&& 0x3F) * 256 :=
        Nat.shiftLeft_eq _ 8
      _ ≤ 63 * 256 := Nat.mul_le_mul_right _ h6
      _ < 32768 := by norm_num
    · exact lor_lt_32768 (land_lt_32768 _ ht) (by omega)
  · by_cases hw : p.w = 0 <;>
      simp only [write_register, write_addr, hw, if_true, if_false,
        reduceIte] <;> norm_num
    · exact hv
    · exact lor_lt_32768 (land_lt_32768 _ ht) (by omega)
  · simp only [read_register, read_status, nmi_change]
    norm_num
    exact ht
  · simp only [read_register, read_status, nmi_change]
    norm_num
    exact hv
  · by_cases hp : p.v % 0x4000 < 0x3F00 <;>
      by_cases hi : p.flag_increment = 0 <;>
      simp only [read_register, read_data, hp, hi, if_true, if_false,
        reduceIte] <;> norm_num <;> exact ht
  · by_cases hi : p.flag_increment = 0 <;>
      simp only [write_register, write_data, hi, if_true, if_false,
        reduceIte] <;> norm_num <;> exact ht
  · by_cases hi : p.flag_increment = 0 <;> simp only [hi, reduceIte] at hinc <;>
      by_cases hp : p.v % 0x4000 < 0x3F00 <;>
      simp only [read_register, read_data, hp, hi, if_true, if_false,
        reduceIte] <;> norm_num <;> omega
  · by_cases hi : p.flag_increment = 0 <;> simp only [hi, reduceIte] at hinc <;>
      simp only [write_register, write_data, hi, if_true, if_false,
        reduceIte] <;> norm_num <;> omega

/-- Instantiation of `v_t_bit15_preservation` at the all-zero state with
the byte 0x55. -/
theorem v_t_bit15_preservation_witness :
    ((write_register ppu0 0x2000 0x55).t < 32768 ∧
     (write_register ppu0 0x2000 0x55).v < 32768) ∧
    ((write_register ppu0 0x2005 0x55).t < 32768 ∧
     (write_register ppu0 0x2005 0x55).v < 32768) ∧
    ((write_register ppu0 0x2006 0x55).t < 32768 ∧
     (write_register ppu0 0x2006 0x55).v < 32768) ∧
    ((read_register ppu0 0x2002).2.t < 32768 ∧
     (read_register ppu0 0x2002).2.v < 32768) ∧
    ((read_register ppu0 0x2007).2.t < 32768 ∧
     (write_register ppu0 0x2007 0x55).t < 32768) ∧
    ((read_register ppu0 0x2007).2.v < 32768 ∧
     (write_register ppu0 0x2007 0x55).v < 32768) := by
  have h := v_t_bit15_preservation ppu0 0x55 (by decide) (by decide) (by decide)
  exact ⟨h.1, h.2.1, h.2.2.1, h.2.2.2.1, h.2.2.2.2.1,
    h.2.2.2.2.2 (by decide)⟩

end Nesrs
